import Mathlib

/-
Verification of the replication engine of the DMS NoSQL-to-NoSQL migration
tool (Python sources under src/mongo_migration/).  The Python workers are
shallowly embedded: documents become a record type, collections become
lists in their scan order, the target store becomes a lookup function
keyed by document id, checkpoint files become an explicit file-content
type, and the filesystem becomes a map from paths to optional contents.
Python's datetime parsing and rendering are kept abstract as function
parameters, as is the MD5-of-canonical-JSON document hash (the code only
ever tests hashes for equality).
-/

/-- A value found in a document's updatedAt field: either an
already-parsed point on the datetime timeline or a raw string
(Python keeps unparseable strings as strings). -/
inductive TSVal
  | date (t : Int)
  | str (s : String)
deriving DecidableEq, Repr

/-- A document: the mandatory primary id, an optional updatedAt field and
the remaining fields collapsed into an opaque payload. -/
structure Doc where
  id : Nat
  updatedAt : Option TSVal
  payload : String
deriving DecidableEq, Repr

/-- One ReplaceOne(filter-by-id, doc, upsert=True) applied to a target
store modelled as a lookup function keyed by id. -/
def upsertOne (tgt : Nat → Option Doc) (d : Doc) : Nat → Option Doc :=
  fun k => if k = d.id then some d else tgt k

namespace CdcWorker

/-- Python's conversion attempt on an updatedAt value read from a
document (cdc_worker.py lines 449-469): a value that is already a date
stays a date; a string is parsed with datetime.fromisoformat when
possible and kept as a string otherwise.  parseISO abstracts the parser. -/
def resolveTS (parseISO : String → Option Int) : TSVal → TSVal
  | TSVal.date t => TSVal.date t
  | TSVal.str s =>
      match parseISO s with
      | some t => TSVal.date t
      | none => TSVal.str s

/-- Python str() of a timestamp value: a datetime renders through
showDate, a string renders as itself. -/
def tsStr (showDate : Int → String) : TSVal → String
  | TSVal.date t => showDate t
  | TSVal.str s => s

/-- The update_needed computation of cdc_worker.py lines 443-480 when
both documents carry updatedAt: after the parse attempt, if either side
is still a string the comparison is str(src) > str(tgt), otherwise the
datetimes are compared strictly. -/
def updateNeeded (parseISO : String → Option Int) (showDate : Int → String)
    (srcTS tgtTS : TSVal) : Bool :=
  match resolveTS parseISO srcTS, resolveTS parseISO tgtTS with
  | TSVal.date a, TSVal.date b => decide (b < a)
  | s, t => decide (tsStr showDate t < tsStr showDate s)

/-- Per-document staging decision of the polling CDC batch loop
(cdc_worker.py lines 417-495): a document missing from the target is
always staged; an existing document is staged when the hashes differ and
either the LWW timestamp test passes, a timestamp is missing on either
side, or force_refresh is set. -/
def stagesUpsert (parseISO : String → Option Int) (showDate : Int → String)
    (forceRefresh : Bool) (hashFn : Doc → String)
    (tgtFind : Nat → Option Doc) (doc : Doc) : Bool :=
  match tgtFind doc.id with
  | none => true
  | some tgtDoc =>
      if hashFn doc ≠ hashFn tgtDoc then
        let needed :=
          match doc.updatedAt, tgtDoc.updatedAt with
          | some s, some t => updateNeeded parseISO showDate s t
          | _, _ => true
        needed || forceRefresh
      else
        false

/-- A staged ReplaceOne operation: the id filter and the replacement
document. -/
structure ReplaceOp where
  key : Nat
  doc : Doc
deriving DecidableEq, Repr

/-- The operations list the polling CDC batch loop builds for one fetched
batch (cdc_worker.py lines 413-495). -/
def buildOperations (parseISO : String → Option Int) (showDate : Int → String)
    (forceRefresh : Bool) (hashFn : Doc → String)
    (tgtFind : Nat → Option Doc) (docs : List Doc) : List ReplaceOp :=
  docs.filterMap (fun d =>
    if stagesUpsert parseISO showDate forceRefresh hashFn tgtFind d
    then some ⟨d.id, d⟩ else none)

/-- Modelled from the claim's words (refinement side of C1): the source
wins exactly when its updated_at is strictly greater than the target's,
falling back to lexicographic comparison of the string forms when either
timestamp fails to parse as a date. -/
def specLwwNewer (parseISO : String → Option Int) (showDate : Int → String)
    (srcTS tgtTS : TSVal) : Bool :=
  match resolveTS parseISO srcTS, resolveTS parseISO tgtTS with
  | TSVal.date a, TSVal.date b => decide (b < a)
  | s, t => decide (tsStr showDate t < tsStr showDate s)

end CdcWorker

namespace CollectionWorker

/-- A bulk checkpoint as saved by collection_worker.save_checkpoint: the
last id of the batch just applied and the running migrated count. -/
structure BulkCheckpoint where
  last_id : Nat
  count : Nat
deriving DecidableEq, Repr

/-- The resume predicate of the bulk loader's query
(collection_worker.py line 128 and line 171): with a saved checkpoint the
query matches ids strictly greater than last_id, without one it matches
everything. -/
def idAfter (lastId : Option Nat) (d : Doc) : Bool :=
  match lastId with
  | none => true
  | some l => decide (l < d.id)

/-- One fetch of find(query).sort(id ascending).limit(BATCH_SIZE)
(collection_worker.py line 135): src is the source collection listed in
its id scan order, and the store returns the matching documents in
ascending id order capped at the batch size. -/
def fetchBatch (src : List Doc) (lastId : Option Nat) (batchSize : Nat) : List Doc :=
  (src.filter (idAfter lastId)).take batchSize

/-- A bulk write of ReplaceOne upserts keyed by id over one batch
(collection_worker.py lines 152-153). -/
def applyUpserts (tgt : Nat → Option Doc) (docs : List Doc) : Nat → Option Doc :=
  docs.foldl upsertOne tgt

/-- In-run state of migrate_collection's loop: the current resume id, the
running total_migrated counter, the target store and the checkpoints
written so far in this run. -/
structure BulkState where
  lastId : Option Nat
  total : Nat
  target : Nat → Option Doc
  checkpoints : List BulkCheckpoint

/-- One iteration of migrate_collection's while loop (collection_worker.py
lines 131-173): fetch a batch; on an empty batch stop (none); otherwise
bulk-upsert the batch, advance last_id to the batch's final id, add the
batch size to total_migrated and save a checkpoint. -/
def bulkStep (src : List Doc) (batchSize : Nat) (s : BulkState) : Option BulkState :=
  let docs := fetchBatch src s.lastId batchSize
  match docs.getLast? with
  | none => none
  | some lastDoc =>
      some { lastId := some lastDoc.id
             total := s.total + docs.length
             target := applyUpserts s.target docs
             checkpoints := s.checkpoints ++ [⟨lastDoc.id, s.total + docs.length⟩] }

/-- Content of a bulk checkpoint file progress/name.json: either valid
JSON carrying an optional last_id entry, or corrupt bytes. -/
inductive BulkFile
  | valid (lastId : Option Nat)
  | corrupt (raw : String)
deriving DecidableEq, Repr

/-- collection_worker.load_checkpoint (lines 11-20): a missing file or a
JSON decode error yields none, valid JSON yields its last_id entry. -/
def load_checkpoint : Option BulkFile → Option Nat
  | none => none
  | some (BulkFile.corrupt _) => none
  | some (BulkFile.valid lastId) => lastId

end CollectionWorker

namespace CdcWorker

/-- A polling CDC checkpoint record as serialized by
cdc_worker.save_checkpoint. -/
structure CdcCheckpoint where
  last_updated_at : Option TSVal
  last_operation_time : Option String
  timestamp : String
  updates : Nat
  deletions : Nat
deriving DecidableEq, Repr

/-- Content of a polling checkpoint file progress/name_cdc.json: valid
JSON carrying a checkpoint record, or corrupt bytes. -/
inductive CdcFile
  | valid (c : CdcCheckpoint)
  | corrupt (raw : String)
deriving DecidableEq, Repr

/-- cdc_worker.load_checkpoint (lines 19-31): a missing file or a JSON
decode error yields (none, none); valid JSON yields its last_updated_at
and last_operation_time entries. -/
def load_checkpoint : Option CdcFile → Option TSVal × Option String
  | none => (none, none)
  | some (CdcFile.corrupt _) => (none, none)
  | some (CdcFile.valid c) => (c.last_updated_at, c.last_operation_time)

/-- cdc_worker.save_checkpoint (lines 34-69): the record written to disk
merges the counter increments with the previously persisted totals when
the existing file is readable, and with zero when it is missing or
unreadable. -/
def save_checkpoint (existing : Option CdcFile) (lastUpdatedAt : Option TSVal)
    (lastOperationTime : Option String) (updates deletions : Nat)
    (now : String) : CdcCheckpoint :=
  let prevUpdates :=
    match existing with
    | some (CdcFile.valid c) => c.updates
    | _ => 0
  let prevDeletions :=
    match existing with
    | some (CdcFile.valid c) => c.deletions
    | _ => 0
  { last_updated_at := lastUpdatedAt
    last_operation_time := lastOperationTime
    timestamp := now
    updates := prevUpdates + updates
    deletions := prevDeletions + deletions }

/-- Result of one run of cdc_worker.handle_deletes: the target collection
after the bulk delete, the number of deletes applied, and the polling
checkpoint file afterwards. -/
structure DeleteResult where
  target : List Doc
  removed : Nat
  checkpointFile : Option CdcFile

/-- cdc_worker.handle_deletes (lines 137-195): choose the sample size
(1000 under force_check or when the target count exceeds the source
count, 100 otherwise), sample that many target documents, stage a delete
for each sampled id absent from the source, apply the staged deletes as
one bulk write, then re-read last_updated_at from the checkpoint file and
save the checkpoint with the deletion count as increment.  When nothing
is staged neither the target nor the checkpoint file is touched; when the
checkpoint file is unreadable the re-read raises and the save is skipped. -/
def handle_deletes (src tgt : List Doc) (checkpointFile : Option CdcFile)
    (lastOperationTime : Option String) (forceCheck : Bool)
    (now : String) : DeleteResult :=
  let targetExceeds := decide (src.length < tgt.length)
  let sampleSize := if forceCheck || targetExceeds then 1000 else 100
  let sampleDocs := tgt.take sampleSize
  let deleteIds :=
    (sampleDocs.filter (fun d => (src.find? (fun s0 => s0.id = d.id)).isNone)).map Doc.id
  if deleteIds.isEmpty then
    { target := tgt, removed := 0, checkpointFile := checkpointFile }
  else
    let newTgt := tgt.filter (fun d => decide (d.id ∉ deleteIds))
    let newFile :=
      match checkpointFile with
      | some (CdcFile.corrupt r) => some (CdcFile.corrupt r)
      | some (CdcFile.valid c) =>
          some (CdcFile.valid (save_checkpoint (some (CdcFile.valid c))
            c.last_updated_at lastOperationTime 0 deleteIds.length now))
      | none =>
          some (CdcFile.valid (save_checkpoint none
            none lastOperationTime 0 deleteIds.length now))
    { target := newTgt, removed := deleteIds.length, checkpointFile := newFile }

/-- cdc_worker.verify_doc (lines 94-115): the source and target lookups
may raise (modelled as Except); both documents absent is a match, exactly
one absent is a mismatch, both present compare by hash, and any raised
exception yields false. -/
def verify_doc (hashFn : Doc → String)
    (srcRes tgtRes : Except String (Option Doc)) : Bool :=
  match srcRes, tgtRes with
  | Except.error _, _ => false
  | _, Except.error _ => false
  | Except.ok none, Except.ok none => true
  | Except.ok none, Except.ok (some _) => false
  | Except.ok (some _), Except.ok none => false
  | Except.ok (some s), Except.ok (some t) => decide (hashFn s = hashFn t)

end CdcWorker

namespace ChangeStreamWorker

/-- A change-stream event as read by process_change_event: the optional
operationType entry, the optional fullDocument post-image, and the
optional documentKey whose own optional field is its _id entry. -/
structure ChangeEvent where
  operationType : Option String
  fullDocument : Option Doc
  documentKey : Option (Option Nat)
deriving DecidableEq, Repr

/-- change_stream_worker.process_change_event (lines 43-71): insert,
update and replace upsert the post-image by its id when one is supplied;
delete removes the document at the supplied key; every other operation
type (and a missing post-image or key) leaves the target unchanged. -/
def process_change_event (change : ChangeEvent)
    (tgt : Nat → Option Doc) : Nat → Option Doc :=
  let op := change.operationType
  if op = some "insert" ∨ op = some "update" ∨ op = some "replace" then
    match change.fullDocument with
    | some doc => upsertOne tgt doc
    | none => tgt
  else if op = some "delete" then
    match change.documentKey with
    | some (some k) => fun x => if x = k then none else tgt x
    | _ => tgt
  else
    tgt

/-- One observation the consume loop of watch_collection_changes makes:
try_next yields nothing, yields a change, raises a PyMongoError, raises
some other exception; or the shutdown flag has been set before the loop
condition is re-read. -/
inductive StreamInput
  | noChange
  | change (e : ChangeEvent)
  | mongoError
  | otherError
  | shutdown
deriving Repr

/-- In-memory state of one streaming worker: the target store, the
processed counter, the token persisted on disk and the stream's current
resume token (modelled as the count of delivered changes). -/
structure WatchState where
  target : Nat → Option Doc
  processed : Nat
  savedToken : Option Nat
  currentToken : Nat

/-- Why the consume loop of watch_collection_changes stopped. -/
inductive ExitReason
  | errorExit
  | shutdownExit
  | inputsExhausted
deriving DecidableEq, Repr

/-- The consume loop of change_stream_worker.watch_collection_changes
(lines 128-172), driven by the list of observations it will make.  A
change is applied and every 100th processed change persists the token; a
PyMongoError sleeps five seconds and breaks out of the loop, after which
the shutdown flag is still clear so the final token save runs and the
function returns with the stream closed and never reopened; other
exceptions sleep and continue; a set shutdown flag ends the loop without
the final save.  The unconsumed observations are returned. -/
def watchLoop (inputs : List StreamInput) (st : WatchState) :
    WatchState × ExitReason × List StreamInput :=
  match inputs with
  | [] => (st, ExitReason.inputsExhausted, [])
  | StreamInput.shutdown :: rest => (st, ExitReason.shutdownExit, rest)
  | StreamInput.noChange :: rest => watchLoop rest st
  | StreamInput.otherError :: rest => watchLoop rest st
  | StreamInput.change e :: rest =>
      let tgt := process_change_event e st.target
      let p := st.processed + 1
      let tok := st.currentToken + 1
      let saved := if p % 100 = 0 then some tok else st.savedToken
      watchLoop rest { target := tgt, processed := p, savedToken := saved, currentToken := tok }
  | StreamInput.mongoError :: rest =>
      ({ st with savedToken := some st.currentToken }, ExitReason.errorExit, rest)

end ChangeStreamWorker

namespace CheckpointStore

/-- The on-disk filesystem: a map from paths to optional file contents. -/
def FS : Type := String → Option String

/-- A whole-content write to one path (the model of the temp file's
content at any instant during the write). -/
def writeFile (fs : FS) (p content : String) : FS :=
  fun q => if q = p then some content else fs q

/-- os.replace: the destination atomically receives the source's content
and the source disappears. -/
def renameFile (fs : FS) (src dst : String) : FS :=
  fun q => if q = src then none else if q = dst then fs src else fs q

/-- The three checkpoint kinds the workers persist. -/
inductive CheckpointKind
  | bulk
  | cdcPolling
  | resumeToken
deriving DecidableEq, Repr

/-- The final path each saver writes: progress/name.json for the bulk
checkpoint (collection_worker.py line 24), progress/name_cdc.json for the
polling checkpoint (cdc_worker.py line 43), and
progress/name_resume_token.json for the stream token
(change_stream_worker.py line 31). -/
def checkpointPath (kind : CheckpointKind) (progressDir name : String) : String :=
  match kind with
  | CheckpointKind.bulk => progressDir ++ "/" ++ name ++ ".json"
  | CheckpointKind.cdcPolling => progressDir ++ "/" ++ name ++ "_cdc.json"
  | CheckpointKind.resumeToken => progressDir ++ "/" ++ name ++ "_resume_token.json"

/-- Every filesystem state observable during one save (all three savers
share the pattern: open path.tmp, write the serialized state, close, then
os.replace the temp over the final path).  partials are the partial
contents of the temp file observable mid-write; the last state is the one
after the atomic rename. -/
def saveStates (fs : FS) (path : String) (partials : List String)
    (content : String) : List FS :=
  fs :: ((partials ++ [content]).map (fun c => writeFile fs (path ++ ".tmp") c)
    ++ [renameFile (writeFile fs (path ++ ".tmp") content) (path ++ ".tmp") path])

end CheckpointStore

namespace Verify

/-- An index dictionary: index names paired with their key patterns (an
ordered list of field name and direction pairs). -/
def IndexInfo : Type := List (String × List (String × Int))

/-- verify.verify_indexes (verify.py lines 30-63): false when the index
counts differ; otherwise every source index name must be present in the
target with an equal key pattern. -/
def verify_indexes (srcIdx tgtIdx : IndexInfo) : Bool :=
  if srcIdx.length ≠ tgtIdx.length then
    false
  else
    srcIdx.all (fun p =>
      match tgtIdx.find? (fun q => q.1 = p.1) with
      | none => false
      | some q => decide (p.2 = q.2))

/-- verify.verify_document_sample (verify.py lines 66-126): an empty
source passes; otherwise documents are sampled at offsets
0, k, 2k, ... below min(total, sample_size * k) with stride
k = max(1, total div sample_size); a sampled document missing from the
target counts as a mismatch without counting as checked, a present one
counts as checked and as a mismatch when the hashes differ; the result is
whether 100 - mismatches / checked * 100 is at least 99 (and false when
nothing was checked, since the percentage is then taken to be 0). -/
def verify_document_sample (src : List Doc) (tgtFind : Nat → Option Doc)
    (hashFn : Doc → String) (sampleSize : Nat) : Bool :=
  let total := src.length
  if total = 0 then
    true
  else
    let k := max 1 (total / sampleSize)
    let stop := min total (sampleSize * k)
    let idxs := List.range' 0 ((stop + k - 1) / k) k
    let tally := idxs.foldl
      (fun (acc : Nat × Nat) (i : Nat) =>
        match src[i]? with
        | none => acc
        | some d =>
            match tgtFind d.id with
            | none => (acc.1 + 1, acc.2)
            | some t =>
                if hashFn d ≠ hashFn t then (acc.1 + 1, acc.2 + 1)
                else (acc.1, acc.2 + 1))
      (0, 0)
    if 0 < tally.2 then
      decide ((99 : ℚ) ≤ 100 - (tally.1 : ℚ) / (tally.2 : ℚ) * 100)
    else
      false

/-- The count entry of the verification record: source count, target
count and whether they matched within tolerance. -/
structure CountCheck where
  source : Nat
  target : Nat
  isMatch : Bool
deriving DecidableEq, Repr

/-- The per-collection verification record verify_collection returns:
the exists check, and the three further checks and the overall status,
each absent when the function returned before computing them. -/
structure VerifyResult where
  existsCheck : Bool
  count : Option CountCheck
  indexes : Option Bool
  documents : Option Bool
  status : Option String
deriving DecidableEq, Repr

/-- The count tolerance test of verify.py lines 160-162: the absolute
count difference is allowed up to max(5, 1% of the source count) — the
Python float literal 0.01 modelled as the exact rational. -/
def count_match (srcCount tgtCount : Nat) : Bool :=
  decide (|(srcCount : ℚ) - (tgtCount : ℚ)| ≤ max 5 ((srcCount : ℚ) * (1 / 100)))

/-- verify.verify_collection (verify.py lines 129-214).  When the target
database does not list the collection the function returns at line 150
with only the exists check recorded and no status entry at all.
Otherwise it records the count check, the index check and the document
sample check, and sets status to OK exactly when all checks hold and to
FAILED otherwise. -/
def verify_collection (collectionName : String) (tgtCollections : List String)
    (src tgt : List Doc) (srcIdx tgtIdx : IndexInfo)
    (hashFn : Doc → String) : VerifyResult :=
  if collectionName ∈ tgtCollections then
    let srcCount := src.length
    let tgtCount := tgt.length
    let countMatch := count_match srcCount tgtCount
    let idxMatch := verify_indexes srcIdx tgtIdx
    let tgtFind := fun k => tgt.find? (fun d => d.id = k)
    let docsMatch := verify_document_sample src tgtFind hashFn 100
    { existsCheck := true
      count := some ⟨srcCount, tgtCount, countMatch⟩
      indexes := some idxMatch
      documents := some docsMatch
      status := some (if countMatch && idxMatch && docsMatch then "OK" else "FAILED") }
  else
    { existsCheck := false, count := none, indexes := none,
      documents := none, status := none }

end Verify

/-- C6: a checkpoint file whose content is unparseable loads as none for
both the bulk loader and the polling CDC worker, and with a none
checkpoint the bulk resume query matches every document, so replication
restarts from zero instead of raising. -/
theorem corrupt_checkpoint_loads_as_none (raw : String) (d : Doc) :
    CollectionWorker.load_checkpoint (some (CollectionWorker.BulkFile.corrupt raw)) = none ∧
    CdcWorker.load_checkpoint (some (CdcWorker.CdcFile.corrupt raw)) = (none, none) ∧
    CollectionWorker.idAfter
      (CollectionWorker.load_checkpoint (some (CollectionWorker.BulkFile.corrupt raw))) d
      = true :=
  ⟨rfl, rfl, rfl⟩

/-- C7: every polling CDC checkpoint save writes counters equal to the
previously persisted totals plus the increments passed in; with no prior
file the prior totals are zero. -/
theorem cdc_checkpoint_counters_cumulative
    (c : CdcWorker.CdcCheckpoint) (lu : Option TSVal) (lot : Option String)
    (u del : Nat) (now : String) :
    (CdcWorker.save_checkpoint (some (CdcWorker.CdcFile.valid c)) lu lot u del now).updates
        = c.updates + u ∧
    (CdcWorker.save_checkpoint (some (CdcWorker.CdcFile.valid c)) lu lot u del now).deletions
        = c.deletions + del ∧
    (CdcWorker.save_checkpoint none lu lot u del now).updates = u ∧
    (CdcWorker.save_checkpoint none lu lot u del now).deletions = del := by
  refine ⟨rfl, rfl, ?_, ?_⟩ <;> simp [CdcWorker.save_checkpoint]

/-- C8: a streaming change event with operation type insert, update or
replace and a supplied post-image upserts the post-image keyed by its id,
replacing whatever document is at that key; a delete event with a
supplied key removes the document at that key; any other operation type
leaves the target unchanged. -/
theorem stream_event_application
    (tgt : Nat → Option Doc) (e : ChangeStreamWorker.ChangeEvent)
    (d : Doc) (kid : Nat) (op : String) :
    ((e.operationType = some "insert" ∨ e.operationType = some "update" ∨
        e.operationType = some "replace") →
      e.fullDocument = some d →
      ChangeStreamWorker.process_change_event e tgt
        = fun k => if k = d.id then some d else tgt k) ∧
    (e.operationType = some "delete" → e.documentKey = some (some kid) →
      ChangeStreamWorker.process_change_event e tgt
        = fun k => if k = kid then none else tgt k) ∧
    (e.operationType = some op →
      op ≠ "insert" → op ≠ "update" → op ≠ "replace" → op ≠ "delete" →
      ChangeStreamWorker.process_change_event e tgt = tgt) := by
  refine ⟨?_, ?_, ?_⟩
  · intro hop hdoc
    rcases hop with hop | hop | hop <;>
      (simp [ChangeStreamWorker.process_change_event, hop, hdoc]; rfl)
  · intro hop hkey
    simp [ChangeStreamWorker.process_change_event, hop, hkey]
  · intro hop h1 h2 h3 h4
    simp [ChangeStreamWorker.process_change_event, hop, h1, h2, h3, h4]

/-- Witness for C8 at concrete events: an insert with a post-image, a
delete with a key, and an invalidate event. -/
theorem stream_event_application_witness :
    (ChangeStreamWorker.process_change_event
        ⟨some "insert", some ⟨1, none, "a"⟩, none⟩ (fun _ => none)
      = fun k => if k = 1 then some ⟨1, none, "a"⟩ else none) ∧
    (ChangeStreamWorker.process_change_event
        ⟨some "delete", none, some (some 2)⟩ (fun _ => none)
      = fun k => if k = 2 then none else none) ∧
    (ChangeStreamWorker.process_change_event
        ⟨some "invalidate", none, none⟩ (fun _ => none) = fun _ => none) :=
  ⟨(stream_event_application (fun _ => none) ⟨some "insert", some ⟨1, none, "a"⟩, none⟩
      ⟨1, none, "a"⟩ 2 "invalidate").1 (Or.inl rfl) rfl,
   (stream_event_application (fun _ => none) ⟨some "delete", none, some (some 2)⟩
      ⟨1, none, "a"⟩ 2 "invalidate").2.1 rfl rfl,
   (stream_event_application (fun _ => none) ⟨some "invalidate", none, none⟩
      ⟨1, none, "a"⟩ 2 "invalidate").2.2 rfl
      (by decide) (by decide) (by decide) (by decide)⟩

/-- C10: verify_doc is true when the document is absent on both sides,
false when it is present on exactly one side, compares canonical hashes
when present on both, and returns false instead of raising when either
lookup raises. -/
theorem verify_doc_spec (hashFn : Doc → String) (s t : Doc)
    (o : Option Doc) (e : String) (r : Except String (Option Doc)) :
    CdcWorker.verify_doc hashFn (Except.ok none) (Except.ok none) = true ∧
    CdcWorker.verify_doc hashFn (Except.ok (some s)) (Except.ok none) = false ∧
    CdcWorker.verify_doc hashFn (Except.ok none) (Except.ok (some s)) = false ∧
    (CdcWorker.verify_doc hashFn (Except.ok (some s)) (Except.ok (some t)) = true
      ↔ hashFn s = hashFn t) ∧
    CdcWorker.verify_doc hashFn (Except.error e) r = false ∧
    CdcWorker.verify_doc hashFn (Except.ok o) (Except.error e) = false := by
  refine ⟨rfl, rfl, rfl, by simp [CdcWorker.verify_doc], ?_, ?_⟩
  · cases r <;> rfl
  · cases o <;> rfl

/-- C4: the streaming worker does not reconnect after a transient error.
On a PyMongoError raised while running, the consume loop saves the
current resume token, exits with errorExit and returns, leaving every
later change event unconsumed and the target untouched — the stream is
never reopened, contradicting the reconnect-and-continue behavior the
specification states. -/
theorem stream_error_closes_loop (st : ChangeStreamWorker.WatchState)
    (e : ChangeStreamWorker.ChangeEvent) :
    ChangeStreamWorker.watchLoop
        [ChangeStreamWorker.StreamInput.mongoError,
         ChangeStreamWorker.StreamInput.change e] st
      = ({ st with savedToken := some st.currentToken },
         ChangeStreamWorker.ExitReason.errorExit,
         [ChangeStreamWorker.StreamInput.change e]) ∧
    (ChangeStreamWorker.watchLoop
        [ChangeStreamWorker.StreamInput.mongoError,
         ChangeStreamWorker.StreamInput.change e] st).1.target = st.target :=
  ⟨rfl, rfl⟩

/-- C1: in the polling CDC batch loop with force_refresh disabled, a
fetched source document that exists in the target with a differing hash
and with updated_at on both sides is staged for upsert exactly when the
claim's last-writer-wins comparison (strictly newer, with lexicographic
fallback on parse failure) says the source wins. -/
theorem cdc_lww_staging
    (parseISO : String → Option Int) (showDate : Int → String)
    (hashFn : Doc → String) (tgtFind : Nat → Option Doc)
    (docs : List Doc) (d t : Doc) (su tu : TSVal)
    (hmem : d ∈ docs)
    (ht : tgtFind d.id = some t)
    (hhash : hashFn d ≠ hashFn t)
    (hsu : d.updatedAt = some su)
    (htu : t.updatedAt = some tu) :
    (CdcWorker.ReplaceOp.mk d.id d ∈
        CdcWorker.buildOperations parseISO showDate false hashFn tgtFind docs)
      ↔ CdcWorker.specLwwNewer parseISO showDate su tu = true := by
  have hstage : CdcWorker.stagesUpsert parseISO showDate false hashFn tgtFind d
      = CdcWorker.specLwwNewer parseISO showDate su tu := by
    simp only [CdcWorker.stagesUpsert, ht, hsu, htu]
    simp [hhash, CdcWorker.updateNeeded, CdcWorker.specLwwNewer]
  constructor
  · intro hin
    rcases List.mem_filterMap.mp hin with ⟨a, hamem, hfa⟩
    by_cases hsa : CdcWorker.stagesUpsert parseISO showDate false hashFn tgtFind a = true
    · simp only [hsa, if_true, Option.some.injEq, CdcWorker.ReplaceOp.mk.injEq] at hfa
      obtain ⟨-, rfl⟩ := hfa
      rw [← hstage]
      exact hsa
    · simp [hsa] at hfa
  · intro hspec
    have hsd : CdcWorker.stagesUpsert parseISO showDate false hashFn tgtFind d = true := by
      rw [hstage]; exact hspec
    exact List.mem_filterMap.mpr ⟨d, hmem, by simp [hsd]⟩

/-- Witness for C1: a source document whose unparseable updated_at string
is lexicographically greater than the target's stages an upsert. -/
theorem cdc_lww_staging_witness :
    ((⟨1, some (TSVal.str "b"), "x"⟩ : Doc) ∈ [(⟨1, some (TSVal.str "b"), "x"⟩ : Doc)] ∧
     (fun k => if k = 1 then some (⟨1, some (TSVal.str "a"), "y"⟩ : Doc) else none)
        ((⟨1, some (TSVal.str "b"), "x"⟩ : Doc).id)
        = some (⟨1, some (TSVal.str "a"), "y"⟩ : Doc) ∧
     Doc.payload (⟨1, some (TSVal.str "b"), "x"⟩ : Doc)
        ≠ Doc.payload (⟨1, some (TSVal.str "a"), "y"⟩ : Doc)) ∧
    ((CdcWorker.ReplaceOp.mk (⟨1, some (TSVal.str "b"), "x"⟩ : Doc).id
        ⟨1, some (TSVal.str "b"), "x"⟩ ∈
        CdcWorker.buildOperations (fun _ => none) (fun _ => "") false Doc.payload
          (fun k => if k = 1 then some ⟨1, some (TSVal.str "a"), "y"⟩ else none)
          [⟨1, some (TSVal.str "b"), "x"⟩])
      ↔ CdcWorker.specLwwNewer (fun _ => none) (fun _ => "")
          (TSVal.str "b") (TSVal.str "a") = true) :=
  ⟨⟨by decide, rfl, by decide⟩,
   cdc_lww_staging (fun _ => none) (fun _ => "") Doc.payload
     (fun k => if k = 1 then some ⟨1, some (TSVal.str "a"), "y"⟩ else none)
     [⟨1, some (TSVal.str "b"), "x"⟩] ⟨1, some (TSVal.str "b"), "x"⟩
     ⟨1, some (TSVal.str "a"), "y"⟩ (TSVal.str "b") (TSVal.str "a")
     (by decide) rfl (by decide) rfl rfl⟩

/-- The sibling temporary path differs from the final path. -/
theorem tmp_path_ne (p : String) : p ++ ".tmp" ≠ p := by
  intro h
  have hl := congrArg String.length h
  rw [String.length_append] at hl
  have h4 : (".tmp" : String).length = 4 := rfl
  omega

/-- The last element of a nonempty list written as head plus a block
ending in a final element. -/
theorem getLast?_concat_cons {α : Type} (a x : α) (l : List α) :
    (a :: (l ++ [x])).getLast? = some x := by
  have hview : a :: (l ++ [x]) = (a :: l) ++ [x] := rfl
  rw [hview, List.getLast?_concat]

/-- C2: every checkpoint save (bulk checkpoint, polling CDC checkpoint
and stream resume token) only ever exposes the final path holding either
the previous content or the complete new content, at every instant of the
save, and the state after the atomic rename holds the new content. -/
theorem checkpoint_save_atomic (kind : CheckpointStore.CheckpointKind)
    (dir name : String) (fs : CheckpointStore.FS)
    (partials : List String) (content : String) (g : CheckpointStore.FS)
    (hg : g ∈ CheckpointStore.saveStates fs
            (CheckpointStore.checkpointPath kind dir name) partials content) :
    (g (CheckpointStore.checkpointPath kind dir name)
        = fs (CheckpointStore.checkpointPath kind dir name) ∨
     g (CheckpointStore.checkpointPath kind dir name) = some content) ∧
    ∃ gfin, (CheckpointStore.saveStates fs
        (CheckpointStore.checkpointPath kind dir name) partials content).getLast?
          = some gfin ∧
      gfin (CheckpointStore.checkpointPath kind dir name) = some content := by
  set p := CheckpointStore.checkpointPath kind dir name with hp
  have htmp : p ≠ p ++ ".tmp" := fun h => tmp_path_ne p h.symm
  constructor
  · rcases List.mem_cons.mp hg with rfl | hg'
    · exact Or.inl rfl
    · rcases List.mem_append.mp hg' with hgw | hgr
      · rcases List.mem_map.mp hgw with ⟨c, -, rfl⟩
        left
        simp [CheckpointStore.writeFile, htmp]
      · rcases List.mem_singleton.mp hgr with rfl
        right
        simp [CheckpointStore.renameFile, CheckpointStore.writeFile, htmp]
  · refine ⟨CheckpointStore.renameFile
      (CheckpointStore.writeFile fs (p ++ ".tmp") content) (p ++ ".tmp") p, ?_, ?_⟩
    · exact getLast?_concat_cons _ _ _
    · simp [CheckpointStore.renameFile, CheckpointStore.writeFile, htmp]

/-- Witness for C2: the initial state of a bulk checkpoint save is a
member of the save's state trace and exposes the prior content. -/
theorem checkpoint_save_atomic_witness :
    ((fun _ => none : CheckpointStore.FS) ∈ CheckpointStore.saveStates
        (fun _ => none) (CheckpointStore.checkpointPath
          CheckpointStore.CheckpointKind.bulk "progress" "users") [] "state") ∧
    (((fun _ => none : CheckpointStore.FS) (CheckpointStore.checkpointPath
          CheckpointStore.CheckpointKind.bulk "progress" "users")
        = (fun _ => none : CheckpointStore.FS) (CheckpointStore.checkpointPath
          CheckpointStore.CheckpointKind.bulk "progress" "users") ∨
      (fun _ => none : CheckpointStore.FS) (CheckpointStore.checkpointPath
          CheckpointStore.CheckpointKind.bulk "progress" "users") = some "state") ∧
     ∃ gfin, (CheckpointStore.saveStates (fun _ => none)
        (CheckpointStore.checkpointPath CheckpointStore.CheckpointKind.bulk
          "progress" "users") [] "state").getLast? = some gfin ∧
       gfin (CheckpointStore.checkpointPath CheckpointStore.CheckpointKind.bulk
          "progress" "users") = some "state") :=
  ⟨List.mem_cons_self _ _,
   checkpoint_save_atomic CheckpointStore.CheckpointKind.bulk "progress" "users"
     (fun _ => none) [] "state" (fun _ => none) (List.mem_cons_self _ _)⟩

/-- C5: the delete reconciler samples up to 1000 target documents when
force_check is set or the target count exceeds the source count and up to
100 otherwise, stages a delete exactly for the sampled ids absent from
the source, applies them in one bulk write, and adds the number of
deletes applied to the polling checkpoint's cumulative deletions counter
while leaving its updates counter and watermark unchanged. -/
theorem handle_deletes_spec (src tgt : List Doc) (c : CdcWorker.CdcCheckpoint)
    (lot : Option String) (forceCheck : Bool) (now : String) :
    (CdcWorker.handle_deletes src tgt (some (CdcWorker.CdcFile.valid c))
        lot forceCheck now).removed
      = ((tgt.take (if forceCheck || decide (src.length < tgt.length) then 1000 else 100)).filter
          (fun d => (src.find? (fun s0 => s0.id = d.id)).isNone)).length ∧
    (∀ d : Doc,
      d ∈ (CdcWorker.handle_deletes src tgt (some (CdcWorker.CdcFile.valid c))
            lot forceCheck now).target
        ↔ d ∈ tgt ∧ d.id ∉
            ((tgt.take (if forceCheck || decide (src.length < tgt.length) then 1000 else 100)).filter
              (fun d => (src.find? (fun s0 => s0.id = d.id)).isNone)).map Doc.id) ∧
    (∃ c', (CdcWorker.handle_deletes src tgt (some (CdcWorker.CdcFile.valid c))
          lot forceCheck now).checkpointFile = some (CdcWorker.CdcFile.valid c') ∧
      c'.deletions = c.deletions
        + (CdcWorker.handle_deletes src tgt (some (CdcWorker.CdcFile.valid c))
            lot forceCheck now).removed ∧
      c'.updates = c.updates ∧
      c'.last_updated_at = c.last_updated_at) := by
  simp only [CdcWorker.handle_deletes]
  by_cases hemp :
      (((tgt.take (if forceCheck || decide (src.length < tgt.length) then 1000 else 100)).filter
        (fun d => (src.find? (fun s0 => s0.id = d.id)).isNone)).map Doc.id).isEmpty = true
  · have hnil := List.isEmpty_iff.mp hemp
    have hnil' := List.map_eq_nil_iff.mp hnil
    simp only [hemp, if_true]
    refine ⟨by rw [hnil', List.length_nil], ?_, ⟨c, rfl, by simp, rfl, rfl⟩⟩
    intro d
    rw [hnil]
    simp
  · simp only [hemp, if_false]
    refine ⟨List.length_map _ _, ?_, ?_⟩
    · intro d
      simp [List.mem_filter]
    · exact ⟨_, rfl, by simp [CdcWorker.save_checkpoint, List.length_map], by
        simp [CdcWorker.save_checkpoint], rfl⟩

namespace CollectionWorker

/-- In a list that is strictly ascending by id, the last element has the
greatest id. -/
theorem sorted_getLast_max {l : List Doc}
    (hs : l.Pairwise (fun a b => a.id < b.id)) {x : Doc}
    (h : l.getLast? = some x) : ∀ d ∈ l, d.id ≤ x.id := by
  induction l with
  | nil => cases h
  | cons a l ih =>
      cases l with
      | nil =>
          intro d hd
          rcases List.mem_singleton.mp hd with rfl
          cases h
          exact Nat.le_refl _
      | cons b l' =>
          rw [List.getLast?_cons_cons] at h
          have hx : x ∈ b :: l' := List.mem_of_getLast?_eq_some h
          rcases List.pairwise_cons.mp hs with ⟨ha, hs'⟩
          intro d hd
          rcases List.mem_cons.mp hd with rfl | hd'
          · exact Nat.le_of_lt (ha x hx)
          · exact ih hs' h d hd'

/-- A fold of upserts over a batch that never writes key k leaves the
target unchanged at k. -/
theorem applyUpserts_no_hit (docs : List Doc) (tgt : Nat → Option Doc) (k : Nat)
    (h : ∀ d ∈ docs, d.id ≠ k) : applyUpserts tgt docs k = tgt k := by
  induction docs generalizing tgt with
  | nil => rfl
  | cons a l ih =>
      have hstep : applyUpserts tgt (a :: l) = applyUpserts (upsertOne tgt a) l := rfl
      rw [hstep, ih (upsertOne tgt a) (fun d hd => h d (List.mem_cons_of_mem a hd))]
      have hak : a.id ≠ k := h a (List.mem_cons_self a l)
      have hka : k ≠ a.id := fun hk => hak hk.symm
      simp [upsertOne, hka]

/-- A fold of upserts over a batch with pairwise distinct ids ends with
each batch document stored at its own id. -/
theorem applyUpserts_hit (docs : List Doc) (tgt : Nat → Option Doc) (d : Doc)
    (hnd : docs.Pairwise (fun a b => a.id ≠ b.id)) (hd : d ∈ docs) :
    applyUpserts tgt docs d.id = some d := by
  induction docs generalizing tgt with
  | nil => cases hd
  | cons a l ih =>
      rcases List.pairwise_cons.mp hnd with ⟨ha, hnd'⟩
      rcases List.mem_cons.mp hd with rfl | hd'
      · have hstep : applyUpserts tgt (d :: l) = applyUpserts (upsertOne tgt d) l := rfl
        rw [hstep, applyUpserts_no_hit l _ d.id (fun e he hk => ha e he hk.symm)]
        simp [upsertOne]
      · exact ih (upsertOne tgt a) hnd' hd'

end CollectionWorker

/-- C3: one iteration of the bulk loader loop reads only source documents
with id strictly greater than the checkpoint's last id, fetches the batch
in ascending id order, applies it as upserts keyed by id (each batch
document lands at its own key and no other key changes), and saves a
checkpoint whose last_id is the greatest id of the batch and whose count
grows by the batch size. -/
theorem bulk_step_spec (src : List Doc) (B : Nat) (s : CollectionWorker.BulkState)
    (hsort : src.Pairwise (fun a b => a.id < b.id))
    (hne : CollectionWorker.fetchBatch src s.lastId B ≠ []) :
    ∃ s' lastDoc,
      CollectionWorker.bulkStep src B s = some s' ∧
      (CollectionWorker.fetchBatch src s.lastId B).getLast? = some lastDoc ∧
      (∀ d ∈ CollectionWorker.fetchBatch src s.lastId B,
          CollectionWorker.idAfter s.lastId d = true) ∧
      (CollectionWorker.fetchBatch src s.lastId B).Pairwise (fun a b => a.id < b.id) ∧
      (∀ d ∈ CollectionWorker.fetchBatch src s.lastId B, s'.target d.id = some d) ∧
      (∀ k, (∀ d ∈ CollectionWorker.fetchBatch src s.lastId B, d.id ≠ k) →
          s'.target k = s.target k) ∧
      (∀ d ∈ CollectionWorker.fetchBatch src s.lastId B, d.id ≤ lastDoc.id) ∧
      s'.checkpoints = s.checkpoints
        ++ [⟨lastDoc.id, s.total + (CollectionWorker.fetchBatch src s.lastId B).length⟩] ∧
      s'.total = s.total + (CollectionWorker.fetchBatch src s.lastId B).length ∧
      s'.lastId = some lastDoc.id := by
  have hsortb : (CollectionWorker.fetchBatch src s.lastId B).Pairwise
      (fun a b => a.id < b.id) :=
    List.Pairwise.sublist ((List.take_sublist _ _).trans (List.filter_sublist _)) hsort
  obtain ⟨lastDoc, hlast⟩ :
      ∃ x, (CollectionWorker.fetchBatch src s.lastId B).getLast? = some x := by
    cases hcase : (CollectionWorker.fetchBatch src s.lastId B).getLast? with
    | none => exact absurd (List.getLast?_eq_none_iff.mp hcase) hne
    | some x => exact ⟨x, rfl⟩
  have hstep : CollectionWorker.bulkStep src B s = some
      { lastId := some lastDoc.id,
        total := s.total + (CollectionWorker.fetchBatch src s.lastId B).length,
        target := CollectionWorker.applyUpserts s.target
          (CollectionWorker.fetchBatch src s.lastId B),
        checkpoints := s.checkpoints
          ++ [⟨lastDoc.id, s.total + (CollectionWorker.fetchBatch src s.lastId B).length⟩] } := by
    simp only [CollectionWorker.bulkStep, hlast]
  refine ⟨_, lastDoc, hstep, hlast, ?_, hsortb, ?_, ?_, ?_, rfl, rfl, rfl⟩
  · intro d hd
    exact List.of_mem_filter (List.mem_of_mem_take hd)
  · intro d hd
    exact CollectionWorker.applyUpserts_hit _ s.target d
      (hsortb.imp (fun h => Nat.ne_of_lt h)) hd
  · intro k hk
    exact CollectionWorker.applyUpserts_no_hit _ s.target k hk
  · exact CollectionWorker.sorted_getLast_max hsortb hlast

/-- Witness for C3: the first bulk batch of size 2 over a three-document
source from an empty checkpoint. -/
theorem bulk_step_spec_witness :
    (([(⟨1, none, "a"⟩ : Doc), ⟨2, none, "b"⟩, ⟨3, none, "c"⟩]).Pairwise
        (fun a b => a.id < b.id) ∧
     CollectionWorker.fetchBatch [⟨1, none, "a"⟩, ⟨2, none, "b"⟩, ⟨3, none, "c"⟩]
        (CollectionWorker.BulkState.mk none 0 (fun _ => none) []).lastId 2 ≠ []) ∧
    (∃ s' lastDoc,
      CollectionWorker.bulkStep [⟨1, none, "a"⟩, ⟨2, none, "b"⟩, ⟨3, none, "c"⟩] 2
          (CollectionWorker.BulkState.mk none 0 (fun _ => none) []) = some s' ∧
      (CollectionWorker.fetchBatch [⟨1, none, "a"⟩, ⟨2, none, "b"⟩, ⟨3, none, "c"⟩]
          (CollectionWorker.BulkState.mk none 0 (fun _ => none) []).lastId 2).getLast?
        = some lastDoc ∧
      (∀ d ∈ CollectionWorker.fetchBatch [⟨1, none, "a"⟩, ⟨2, none, "b"⟩, ⟨3, none, "c"⟩]
          (CollectionWorker.BulkState.mk none 0 (fun _ => none) []).lastId 2,
        CollectionWorker.idAfter
          (CollectionWorker.BulkState.mk none 0 (fun _ => none) []).lastId d = true) ∧
      (CollectionWorker.fetchBatch [⟨1, none, "a"⟩, ⟨2, none, "b"⟩, ⟨3, none, "c"⟩]
          (CollectionWorker.BulkState.mk none 0 (fun _ => none) []).lastId 2).Pairwise
        (fun a b => a.id < b.id) ∧
      (∀ d ∈ CollectionWorker.fetchBatch [⟨1, none, "a"⟩, ⟨2, none, "b"⟩, ⟨3, none, "c"⟩]
          (CollectionWorker.BulkState.mk none 0 (fun _ => none) []).lastId 2,
        s'.target d.id = some d) ∧
      (∀ k, (∀ d ∈ CollectionWorker.fetchBatch [⟨1, none, "a"⟩, ⟨2, none, "b"⟩, ⟨3, none, "c"⟩]
          (CollectionWorker.BulkState.mk none 0 (fun _ => none) []).lastId 2, d.id ≠ k) →
        s'.target k = (CollectionWorker.BulkState.mk none 0 (fun _ => none) []).target k) ∧
      (∀ d ∈ CollectionWorker.fetchBatch [⟨1, none, "a"⟩, ⟨2, none, "b"⟩, ⟨3, none, "c"⟩]
          (CollectionWorker.BulkState.mk none 0 (fun _ => none) []).lastId 2,
        d.id ≤ lastDoc.id) ∧
      s'.checkpoints = (CollectionWorker.BulkState.mk none 0 (fun _ => none) []).checkpoints
        ++ [⟨lastDoc.id, (CollectionWorker.BulkState.mk none 0 (fun _ => none) []).total
              + (CollectionWorker.fetchBatch [⟨1, none, "a"⟩, ⟨2, none, "b"⟩, ⟨3, none, "c"⟩]
                  (CollectionWorker.BulkState.mk none 0 (fun _ => none) []).lastId 2).length⟩] ∧
      s'.total = (CollectionWorker.BulkState.mk none 0 (fun _ => none) []).total
        + (CollectionWorker.fetchBatch [⟨1, none, "a"⟩, ⟨2, none, "b"⟩, ⟨3, none, "c"⟩]
            (CollectionWorker.BulkState.mk none 0 (fun _ => none) []).lastId 2).length ∧
      s'.lastId = some lastDoc.id) :=
  ⟨⟨by decide, by decide⟩,
   bulk_step_spec [⟨1, none, "a"⟩, ⟨2, none, "b"⟩, ⟨3, none, "c"⟩] 2
     (CollectionWorker.BulkState.mk none 0 (fun _ => none) [])
     (by decide) (by decide)⟩

/-- C9 counterexample: when the collection is absent from the target
database, verify_collection returns early with no status entry at all —
the record's status is none, not FAILED, so the claim's "otherwise the
status is FAILED" fails on the code. -/
theorem verify_collection_missing_status_counterexample :
    (Verify.verify_collection "users" [] [] [] [] [] (fun _ => "")).status = none ∧
    (Verify.verify_collection "users" [] [] [] [] [] (fun _ => "")).status
      ≠ some "FAILED" ∧
    (Verify.verify_collection "users" [] [] [] [] [] (fun _ => "")).existsCheck
      = false := by
  refine ⟨rfl, ?_, rfl⟩
  intro h
  cases h

/-- C9 amended: when the collection exists in the target, the status is
OK exactly when all four checks pass and is FAILED otherwise; when the
existence check fails, the record carries only the failed exists check
and no status entry at all. -/
theorem verify_collection_status (collectionName : String)
    (tgtCollections : List String) (src tgt : List Doc)
    (srcIdx tgtIdx : Verify.IndexInfo) (hashFn : Doc → String) :
    (collectionName ∈ tgtCollections →
      (((Verify.verify_collection collectionName tgtCollections src tgt srcIdx
            tgtIdx hashFn).status = some "OK")
        ↔ ((Verify.verify_collection collectionName tgtCollections src tgt srcIdx
              tgtIdx hashFn).existsCheck = true ∧
           (Verify.verify_collection collectionName tgtCollections src tgt srcIdx
              tgtIdx hashFn).count
             = some (Verify.CountCheck.mk src.length tgt.length true) ∧
           (Verify.verify_collection collectionName tgtCollections src tgt srcIdx
              tgtIdx hashFn).indexes = some true ∧
           (Verify.verify_collection collectionName tgtCollections src tgt srcIdx
              tgtIdx hashFn).documents = some true)) ∧
      ((Verify.verify_collection collectionName tgtCollections src tgt srcIdx
          tgtIdx hashFn).status = some "OK" ∨
       (Verify.verify_collection collectionName tgtCollections src tgt srcIdx
          tgtIdx hashFn).status = some "FAILED")) ∧
    (collectionName ∉ tgtCollections →
      (Verify.verify_collection collectionName tgtCollections src tgt srcIdx
          tgtIdx hashFn).existsCheck = false ∧
      (Verify.verify_collection collectionName tgtCollections src tgt srcIdx
          tgtIdx hashFn).status = none) := by
  constructor
  · intro hmem
    simp only [Verify.verify_collection, if_pos hmem]
    cases hcm : Verify.count_match src.length tgt.length <;>
      cases him : Verify.verify_indexes srcIdx tgtIdx <;>
        cases hdm : Verify.verify_document_sample src
            (fun k => tgt.find? (fun d => d.id = k)) hashFn 100 <;>
          simp [hcm, him, hdm]
  · intro hnot
    simp [Verify.verify_collection, hnot]

/-- Witness for C9 amended: an existing empty collection verifies OK. -/
theorem verify_collection_status_witness :
    ("users" ∈ ["users"]) ∧
    ((((Verify.verify_collection "users" ["users"] [] [] [] []
          (fun _ => "")).status = some "OK")
      ↔ ((Verify.verify_collection "users" ["users"] [] [] [] []
            (fun _ => "")).existsCheck = true ∧
         (Verify.verify_collection "users" ["users"] [] [] [] []
            (fun _ => "")).count = some (Verify.CountCheck.mk 0 0 true) ∧
         (Verify.verify_collection "users" ["users"] [] [] [] []
            (fun _ => "")).indexes = some true ∧
         (Verify.verify_collection "users" ["users"] [] [] [] []
            (fun _ => "")).documents = some true)) ∧
     ((Verify.verify_collection "users" ["users"] [] [] [] []
          (fun _ => "")).status = some "OK" ∨
      (Verify.verify_collection "users" ["users"] [] [] [] []
          (fun _ => "")).status = some "FAILED")) :=
  ⟨by decide,
   (verify_collection_status "users" ["users"] [] [] [] [] (fun _ => "")).1
     (by decide)⟩
